import Mathlib

/-!
A verification development for the authentication, session and
tenant-isolation core of the scout-platform backend.

The Python sources are embedded shallowly:

* `app/core/tenant.py` — `TenantContext`, `ensure_tenant_access`,
  `filter_by_tenant`;
* `app/core/security.py` — `TokenManager.verify_token`,
  `TokenManager.revoke_token`, `RateLimiter.check_rate_limit`;
* `app/api/endpoints/auth.py` — `check_failed_login_attempts`,
  `record_failed_login_attempt`, `clear_failed_login_attempts`, the
  `/login` and `/refresh` endpoints.

Redis keys with a TTL are modelled by their absolute expiry time; a read
at time `now` sees a key while `now ≤ expiry` (Redis drops a key only
strictly after its expiry instant).  Machine time is in integer seconds,
matching `int(time.time())` / `int(datetime.now().timestamp())` in the
sources.  Fallible store reads are modelled with `Except Unit`.
-/

namespace Scout

/-! ## Tenant isolation (`app/core/tenant.py`) -/

/-- Python truthiness of an optional integer field: `None` and `0` are both
falsy, so `not tenant_context.company_id` holds for either. -/
def optIntFalsy : Option Int → Bool
  | none => true
  | some v => v == 0

/-- The request-scoped tenant context (class `TenantContext`); only the two
fields read by `ensure_tenant_access` and `filter_by_tenant` are kept
(`user_id`, `user` and `company` are not consulted by them). -/
structure TenantContext where
  company_id : Option Int
  is_super_admin : Bool
deriving DecidableEq, Repr

/-- Outcome of `ensure_tenant_access`: either the function returns normally
or it raises `HTTPException(403, detail)`. -/
inductive EnsureResult where
  | ok : EnsureResult
  | forbidden (detail : String) : EnsureResult
deriving DecidableEq, Repr

/-- `ensure_tenant_access(company_id)`: super admins pass, a falsy
`company_id` on the context is rejected, then the two ids are compared. -/
def ensure_tenant_access (ctx : TenantContext) (company_id : Int) : EnsureResult :=
  if ctx.is_super_admin then .ok
  else if optIntFalsy ctx.company_id then
    .forbidden "User is not associated with any company"
  else if ctx.company_id ≠ some company_id then
    .forbidden "Access denied: insufficient permissions for this tenant"
  else .ok

/-- `filter_by_tenant(query, model_class, company_field)`: the query is the
list of candidate rows and `owner r` is the row's `company_field` column
(`Option` because the column is nullable, and an SQL `NULL` never matches
an equality test).  `query.filter(False)` yields the empty result set. -/
def filter_by_tenant {α : Type} (ctx : TenantContext) (query : List α)
    (owner : α → Option Int) : List α :=
  if ctx.is_super_admin then query
  else if optIntFalsy ctx.company_id then []
  else query.filter (fun r => owner r == ctx.company_id)

/-! ## Tokens (`app/core/security.py`, `TokenManager`) -/

/-- A decoded JWT payload as produced by `create_access_token` /
`create_refresh_token`: subject (`sub`, the user id as a string), unique
token id (`jti`), expiry (`exp`, seconds since epoch) and the
`token_type` claim.  `sig_ok` abstracts whether `jwt.decode` accepts the
token's signature under the server's secret key. -/
structure Token where
  sub : String
  jti : String
  exp : Int
  token_type : String
  sig_ok : Bool
deriving DecidableEq, Repr

/-- A family of Redis string keys carrying a TTL, recorded as the absolute
expiry time of each present key. -/
abbrev KeyStore := String → Option Int

/-- A Redis `GET` at time `now`: a key is visible while `now ≤ expiry`. -/
def redisGet (m : KeyStore) (k : String) (now : Int) : Bool :=
  match m k with
  | some e => decide (now ≤ e)
  | none => false

/-- Result of `TokenManager.verify_token`: the decoded payload, one of the
`HTTPException`s the function raises, or a propagated store failure (a
Redis exception is neither `ExpiredSignatureError` nor `JWTError`, so it
escapes both handlers). -/
inductive VerifyOutcome where
  | ok (payload : Token)
  | invalid
  | expired
  | revoked
  | storeError
deriving DecidableEq, Repr

/-- `TokenManager.verify_token`: `jwt.decode` checks the signature and the
`exp` claim (expired iff `now > exp`) before the function reads the
denylist key for the token's `jti`. -/
def verify_token (bl : Except Unit KeyStore) (t : Token) (now : Int) : VerifyOutcome :=
  if ¬ t.sig_ok then .invalid
  else if t.exp < now then .expired
  else
    match bl with
    | .error _ => .storeError
    | .ok m =>
        if redisGet m ("blacklisted_token:" ++ t.jti) now then .revoked
        else .ok t

/-- `TokenManager.revoke_token`: decodes the token (an invalid or already
expired token raises inside `jwt.decode` and the `except jwt.JWTError`
makes that a no-op), computes the remaining TTL `exp - now`, and writes
the denylist entry only when that TTL is positive. -/
def revoke_token (m : KeyStore) (t : Token) (now : Int) : KeyStore :=
  if ¬ t.sig_ok then m
  else if t.exp < now then m
  else
    let ttl := t.exp - now
    if 0 < ttl then
      fun k => if k = "blacklisted_token:" ++ t.jti then some (now + ttl) else m k
    else m

/-! ## The refresh endpoint (`app/api/endpoints/auth.py`) -/

/-- The user columns consulted by the `/refresh` endpoint. -/
structure UserRow where
  is_active : Bool
deriving DecidableEq, Repr

/-- Outcome of `POST /refresh`: a fresh access token or a 401. -/
inductive RefreshOutcome where
  | issued
  | unauthorized (detail : String)
deriving DecidableEq, Repr

/-- The `/refresh` endpoint: verify the presented token, require the
`refresh` token type, require the key `refresh_token:<uid>:<jti>` to still
exist in the store, then require an existing active user.  `store` tells
which refresh keys currently exist; a propagated store failure is caught
by the endpoint's generic handler and becomes a 401. -/
def refresh_endpoint (bl : Except Unit KeyStore) (store : String → Bool)
    (users : String → Option UserRow) (t : Token) (now : Int) : RefreshOutcome :=
  match verify_token bl t now with
  | .invalid => .unauthorized "Could not validate credentials"
  | .expired => .unauthorized "Token has expired"
  | .revoked => .unauthorized "Token has been revoked"
  | .storeError => .unauthorized "Invalid refresh token"
  | .ok p =>
      if p.token_type ≠ "refresh" then .unauthorized "Invalid token type"
      else if ¬ store ("refresh_token:" ++ p.sub ++ ":" ++ p.jti) then
        .unauthorized "Refresh token has been revoked"
      else
        match users p.sub with
        | none => .unauthorized "User not found or inactive"
        | some u =>
            if ¬ u.is_active then .unauthorized "User not found or inactive"
            else .issued

/-! ## Rate limiter (`app/core/security.py`, `RateLimiter`) -/

/-- The dictionary returned by `RateLimiter.check_rate_limit`. -/
structure RateResult where
  allowed : Bool
  limit : Int
  remaining : Int
  reset_time : Int
  retry_after : Int
deriving DecidableEq, Repr

/-- `RateLimiter.check_rate_limit(identifier, limit, window_seconds)`.

The Redis sorted set `rate_limit:<identifier>` is the set of scores it
currently holds: every `ZADD` uses member `str(current_time)` with score
`current_time`, so the members are in bijection with the stored integer
seconds and two requests in the same second write the same member.
`ZREMRANGEBYSCORE key 0 window_start` drops scores in `[0, now - window]`;
`ZCARD` counts what is left; a denied request is not recorded; the
`EXPIRE` on the allowed path is subsumed by the pruning.  Returns the
response dictionary and the updated sorted set. -/
def check_rate_limit (state : Finset Int) (limit window_seconds now : Int) :
    RateResult × Finset Int :=
  let window_start := now - window_seconds
  let pruned := state.filter (fun ts => ¬ (0 ≤ ts ∧ ts ≤ window_start))
  let current_requests : Int := pruned.card
  if h : limit ≤ current_requests ∧ pruned.Nonempty then
    let reset_time := pruned.min' h.2 + window_seconds
    ({ allowed := false, limit := limit, remaining := 0,
       reset_time := reset_time, retry_after := max 0 (reset_time - now) },
     pruned)
  else
    ({ allowed := true, limit := limit,
       remaining := max 0 (limit - current_requests - 1),
       reset_time := now + window_seconds, retry_after := 0 },
     insert now pruned)

/-- Successive `check_rate_limit` calls for a single identifier, at the
given sequence of call times; returns the list of responses. -/
def runRate (state : Finset Int) (limit window_seconds : Int) :
    List Int → List RateResult
  | [] => []
  | t :: ts =>
      let r := check_rate_limit state limit window_seconds t
      r.1 :: runRate r.2 limit window_seconds ts

/-! ## Failed-login lockout guard (`app/api/endpoints/auth.py`) -/

/-- A Redis counter key: its value and absolute expiry. -/
structure Counter where
  count : Nat
  expires_at : Int
deriving DecidableEq, Repr

/-- The two lockout counters belonging to one (credential, origin) pair:
`login_attempts:email:<hash(email)>` and `login_attempts:ip:<ip>`. -/
structure LockState where
  email : Option Counter
  ip : Option Counter
deriving DecidableEq, Repr

/-- The three settings the lockout guard reads.  `config.py` declares no
values for these names, so they stay abstract parameters of the model. -/
structure LockSettings where
  max_email : Nat
  max_ip : Nat
  lockout_duration : Int
deriving DecidableEq, Repr

/-- Reading one lockout counter at time `now`: a missing or expired key
reads as 0 (`int(x) if x else 0` on a `GET` that returned `None`). -/
def counterVal (c : Option Counter) (now : Int) : Nat :=
  match c with
  | some k => if now ≤ k.expires_at then k.count else 0
  | none => 0

/-- `check_failed_login_attempts` with fallible Redis reads: the two `GET`s
sit inside a `try` whose handler catches every exception and returns
`True` (source comment: allow login on error); no configuration flag is
consulted.  On a successful read the request is blocked when either
counter has reached its configured maximum. -/
def check_failed_login_attempts_fallible
    (emailRead ipRead : Except Unit (Option Counter))
    (cfg : LockSettings) (now : Int) : Bool :=
  match emailRead, ipRead with
  | .ok e, .ok i =>
      if cfg.max_email ≤ counterVal e now ∨ cfg.max_ip ≤ counterVal i now then false
      else true
  | _, _ => true

/-- `check_failed_login_attempts` on a healthy store. -/
def check_failed_login_attempts (s : LockState) (cfg : LockSettings) (now : Int) : Bool :=
  check_failed_login_attempts_fallible (.ok s.email) (.ok s.ip) cfg now

/-- `record_failed_login_attempt`: `INCR` both counters (a missing or
expired key restarts from 0) and then reset both TTLs to
`LOGIN_ATTEMPT_LOCKOUT_DURATION`. -/
def record_failed_login_attempt (s : LockState) (cfg : LockSettings) (now : Int) : LockState :=
  { email := some ⟨counterVal s.email now + 1, now + cfg.lockout_duration⟩,
    ip := some ⟨counterVal s.ip now + 1, now + cfg.lockout_duration⟩ }

/-- `clear_failed_login_attempts`: `DEL` both keys. -/
def clear_failed_login_attempts (_ : LockState) : LockState := ⟨none, none⟩

/-- A sequence of recorded failures at the given times. -/
def recordSeq (s : LockState) (cfg : LockSettings) : List Int → LockState
  | [] => s
  | t :: ts => recordSeq (record_failed_login_attempt s cfg t) cfg ts

/-! ## The login endpoint (`app/api/endpoints/auth.py`, `login`) -/

/-- An HTTP error response: status code and detail message. -/
structure HttpError where
  code : Nat
  detail : String
deriving DecidableEq, Repr

/-- The user columns consulted by `login` after the credential check. -/
structure LoginUser where
  is_active : Bool
  locked_until : Option Int
deriving DecidableEq, Repr

/-- The shared state `login` touches for one (client IP, email) pair: the
rate window of the IP and the lockout counters of the pair. -/
structure AuthState where
  rate : Finset Int
  lock : LockState
deriving DecidableEq

/-- One `POST /login` attempt for a fixed email and client IP.  In source
order: rate limit (5 per 300 s keyed by the IP, recording every attempt)
→ lockout check → user lookup and password check (`pw_ok` is the result
of `verify_password`; for a missing user the `or` short-circuits and the
password is never checked) → `is_active` → `locked_until` → clear the
lockout counters and succeed.  The success payload (tokens, session) is
collapsed to `Unit`. -/
def login (S : AuthState) (cfg : LockSettings) (user : Option LoginUser)
    (pw_ok : Bool) (now : Int) : Except HttpError Unit × AuthState :=
  let rl := check_rate_limit S.rate 5 300 now
  if rl.1.allowed = false then
    (.error ⟨429, "Too many login attempts. Try again in " ++
        toString rl.1.retry_after ++ " seconds."⟩,
     { S with rate := rl.2 })
  else if check_failed_login_attempts S.lock cfg now = false then
    (.error ⟨423, "Account temporarily locked due to excessive failed login attempts"⟩,
     { S with rate := rl.2 })
  else
    match user with
    | none =>
        (.error ⟨401, "Invalid email or password"⟩,
         { rate := rl.2, lock := record_failed_login_attempt S.lock cfg now })
    | some u =>
        if pw_ok = false then
          (.error ⟨401, "Invalid email or password"⟩,
           { rate := rl.2, lock := record_failed_login_attempt S.lock cfg now })
        else if u.is_active = false then
          (.error ⟨403, "Account is disabled"⟩, { S with rate := rl.2 })
        else
          match u.locked_until with
          | some lu =>
              if now < lu then
                (.error ⟨423, "Account is locked until " ++ toString lu⟩,
                 { S with rate := rl.2 })
              else
                (.ok (), { rate := rl.2, lock := clear_failed_login_attempts S.lock })
          | none =>
              (.ok (), { rate := rl.2, lock := clear_failed_login_attempts S.lock })

deriving instance DecidableEq for Except

/-- Successive `login` attempts with the same email, IP, stored user and
submitted password, at the given call times. -/
def runLogin (S : AuthState) (cfg : LockSettings) (user : Option LoginUser)
    (pw_ok : Bool) : List Int → List (Except HttpError Unit)
  | [] => []
  | t :: ts =>
      let r := login S cfg user pw_ok t
      r.1 :: runLogin r.2 cfg user pw_ok ts

/-! ## C1 — tenant isolation -/

/-- C1, counterexample: a principal whose `company_id` is present but `0` is
tenant-bound in the claim's sense, yet `ensure_tenant_access` raises
Forbidden even when the target tenant is that very id `0` (Python's
`not company_id` is true for `0`), and `filter_by_tenant` returns the
empty set instead of the rows owned by tenant `0`. -/
theorem ensure_tenant_access_zero_tenant_cex :
    ensure_tenant_access ⟨some 0, false⟩ 0 =
      .forbidden "User is not associated with any company" ∧
    filter_by_tenant ⟨some 0, false⟩ [(0 : Int)] (fun r => some r) = [] :=
  ⟨rfl, rfl⟩

/-- C1, amended: with a tenant id of `0` treated as absent, tenant isolation
holds: a non-admin principal with an absent-or-zero tenant id gets the
empty result set from `filter_by_tenant` (never an error) and Forbidden
from `ensure_tenant_access`; a non-admin principal with a nonzero tenant
id `c` is rejected by `ensure_tenant_access` exactly when the target
differs from `c` and `filter_by_tenant` keeps exactly the rows owned by
`c`; platform admins pass both unconditionally. -/
theorem tenant_isolation_amended (ctx : TenantContext) (target : Int)
    {α : Type} (q : List α) (owner : α → Option Int) :
    (ctx.is_super_admin = false → optIntFalsy ctx.company_id = true →
      filter_by_tenant ctx q owner = [] ∧
      ensure_tenant_access ctx target =
        .forbidden "User is not associated with any company") ∧
    (∀ c : Int, ctx.is_super_admin = false → ctx.company_id = some c → c ≠ 0 →
      (ensure_tenant_access ctx target =
        if c = target then .ok
        else .forbidden "Access denied: insufficient permissions for this tenant") ∧
      filter_by_tenant ctx q owner = q.filter (fun r => owner r == some c)) ∧
    (ctx.is_super_admin = true →
      ensure_tenant_access ctx target = .ok ∧ filter_by_tenant ctx q owner = q) := by
  refine ⟨?_, ?_, ?_⟩
  · intro ha hf
    constructor
    · simp [filter_by_tenant, ha, hf]
    · simp [ensure_tenant_access, ha, hf]
  · intro c ha hc hc0
    have hf : optIntFalsy (some c) = false := by
      simp [optIntFalsy, hc0]
    constructor
    · by_cases h : c = target
      · subst h
        simp [ensure_tenant_access, ha, hc, hf]
      · simp [ensure_tenant_access, ha, hc, hf, h]
    · simp [filter_by_tenant, ha, hc, hf]
  · intro ha
    exact ⟨by simp [ensure_tenant_access, ha], by simp [filter_by_tenant, ha]⟩

/-- C1, witness for the amended theorem at a concrete tenant-bound
principal and a concrete admin. -/
theorem tenant_isolation_amended_witness :
    ensure_tenant_access ⟨some 1, false⟩ 2 =
      .forbidden "Access denied: insufficient permissions for this tenant" ∧
    filter_by_tenant ⟨some 1, false⟩ [(1 : Int), 2] (fun r => some r) = [1] ∧
    filter_by_tenant ⟨none, true⟩ [(1 : Int), 2] (fun r => some r) = [1, 2] := by
  have h := (tenant_isolation_amended (⟨some 1, false⟩ : TenantContext) 2
      [(1 : Int), 2] (fun r => some r)).2.1 1 rfl rfl (by decide)
  have ha := (tenant_isolation_amended (⟨none, true⟩ : TenantContext) 2
      [(1 : Int), 2] (fun r => some r)).2.2 rfl
  refine ⟨?_, ?_, ha.2⟩
  · rw [h.1]; decide
  · rw [h.2]; decide

/-! ## C2 — revocation semantics of access tokens -/

/-- C2: for a signature-valid token with positive remaining lifetime at
revocation time, every subsequent verification fails with Revoked while
`now ≤ exp` and with Expired once `now > exp`; an expired token reads as
Expired whatever the denylist store holds (the denylist is only consulted
after signature and expiry pass), a bad-signature token reads as Invalid,
and revocation is a no-op when the remaining lifetime is `≤ 0`. -/
theorem revoke_verify_semantics (m : KeyStore) (t : Token) (now₀ : Int)
    (hsig : t.sig_ok = true) (hlive : now₀ < t.exp) :
    (∀ tq : Int, now₀ ≤ tq → tq ≤ t.exp →
      verify_token (.ok (revoke_token m t now₀)) t tq = .revoked) ∧
    (∀ tq : Int, t.exp < tq →
      verify_token (.ok (revoke_token m t now₀)) t tq = .expired) ∧
    (∀ (bl : Except Unit KeyStore) (tq : Int), t.exp < tq →
      verify_token bl t tq = .expired) ∧
    (∀ (bl : Except Unit KeyStore) (u : Token) (tq : Int), u.sig_ok = false →
      verify_token bl u tq = .invalid) ∧
    (∀ (m' : KeyStore) (n : Int), t.exp - n ≤ 0 → revoke_token m' t n = m') := by
  have hne : ¬ t.exp < now₀ := by omega
  have httl : 0 < t.exp - now₀ := by omega
  have hkey : revoke_token m t now₀ ("blacklisted_token:" ++ t.jti) = some t.exp := by
    simp [revoke_token, hsig, hne, httl]
  refine ⟨?_, ?_, ?_, ?_, ?_⟩
  · intro tq h1 h2
    have hne2 : ¬ t.exp < tq := by omega
    simp [verify_token, hsig, hne2, redisGet, hkey, h2]
  · intro tq h
    simp [verify_token, hsig, h]
  · intro bl tq h
    simp [verify_token, hsig, h]
  · intro bl u tq h
    simp [verify_token, h]
  · intro m' n h
    by_cases hx : t.exp < n
    · simp [revoke_token, hsig, hx]
    · have : ¬ 0 < t.exp - n := by omega
      simp [revoke_token, hsig, hx, this]

/-- C2, witness: a token expiring at `100` revoked at `50` verifies as
Revoked at `80` and at `100`, and as Expired at `101`. -/
theorem revoke_verify_semantics_witness :
    verify_token (.ok (revoke_token (fun _ => none) ⟨"1", "j", 100, "access", true⟩ 50))
      ⟨"1", "j", 100, "access", true⟩ 80 = .revoked ∧
    verify_token (.ok (revoke_token (fun _ => none) ⟨"1", "j", 100, "access", true⟩ 50))
      ⟨"1", "j", 100, "access", true⟩ 100 = .revoked ∧
    verify_token (.ok (revoke_token (fun _ => none) ⟨"1", "j", 100, "access", true⟩ 50))
      ⟨"1", "j", 100, "access", true⟩ 101 = .expired := by
  have h := revoke_verify_semantics (fun _ => none) ⟨"1", "j", 100, "access", true⟩ 50
      rfl (by decide)
  exact ⟨h.1 80 (by decide) (by decide), h.1 100 (by decide) (by decide),
    h.2.1 101 (by decide)⟩

/-! ## C3 — refresh requires the store entry -/

/-- C3, counterexample: a signature-valid, unexpired, type-`refresh` token
whose store entry exists (the store holds every key) can still fail
refresh — here the subject user row is missing — so store-entry existence
alone is not equivalent to success. -/
theorem refresh_iff_store_cex :
    (fun _ : String => true) ("refresh_token:" ++ "7" ++ ":" ++ "j") = true ∧
    refresh_endpoint (.ok fun _ => none) (fun _ => true) (fun _ => none)
      ⟨"7", "j", 100, "refresh", true⟩ 10 =
      .unauthorized "User not found or inactive" :=
  ⟨rfl, rfl⟩

/-- C3, amended: for a signature-valid, unexpired token, refresh succeeds
iff the token id is not denylisted, the token type is `refresh`, the
refresh key still exists in the store, and the subject user exists and is
active; deleting the store entry alone already forces a 401 even though
the token is structurally valid. -/
theorem refresh_requires_store_amended (bl : KeyStore) (store : String → Bool)
    (users : String → Option UserRow) (t : Token) (now : Int)
    (hsig : t.sig_ok = true) (hexp : now ≤ t.exp) :
    (refresh_endpoint (.ok bl) store users t now = .issued ↔
      redisGet bl ("blacklisted_token:" ++ t.jti) now = false ∧
      t.token_type = "refresh" ∧
      store ("refresh_token:" ++ t.sub ++ ":" ++ t.jti) = true ∧
      ∃ u, users t.sub = some u ∧ u.is_active = true) ∧
    (redisGet bl ("blacklisted_token:" ++ t.jti) now = false →
      t.token_type = "refresh" →
      store ("refresh_token:" ++ t.sub ++ ":" ++ t.jti) = false →
      refresh_endpoint (.ok bl) store users t now =
        .unauthorized "Refresh token has been revoked") := by
  have hne : ¬ t.exp < now := by omega
  by_cases hbl : redisGet bl ("blacklisted_token:" ++ t.jti) now = true
  · constructor
    · simp [refresh_endpoint, verify_token, hsig, hne, hbl]
    · intro h
      simp [hbl] at h
  · rw [Bool.not_eq_true] at hbl
    constructor
    · by_cases hty : t.token_type = "refresh"
      · by_cases hst : store ("refresh_token:" ++ t.sub ++ ":" ++ t.jti) = true
        · cases hu : users t.sub with
          | none =>
              simp [refresh_endpoint, verify_token, hsig, hne, hbl, hty, hst, hu]
          | some u =>
              by_cases hact : u.is_active = true
              · simp [refresh_endpoint, verify_token, hsig, hne, hbl, hty, hst, hu, hact]
              · rw [Bool.not_eq_true] at hact
                simp [refresh_endpoint, verify_token, hsig, hne, hbl, hty, hst, hu, hact]
        · rw [Bool.not_eq_true] at hst
          simp [refresh_endpoint, verify_token, hsig, hne, hbl, hty, hst]
      · simp [refresh_endpoint, verify_token, hsig, hne, hbl, hty]
    · intro _ hty hst
      simp [refresh_endpoint, verify_token, hsig, hne, hbl, hty, hst]

/-- C3, witness: with the entry present and an active user the refresh is
issued; the same token with the entry deleted gets the revoked 401. -/
theorem refresh_requires_store_amended_witness :
    refresh_endpoint (.ok fun _ => none) (fun _ => true)
      (fun _ => some ⟨true⟩) ⟨"7", "j", 100, "refresh", true⟩ 10 = .issued ∧
    refresh_endpoint (.ok fun _ => none) (fun _ => false)
      (fun _ => some ⟨true⟩) ⟨"7", "j", 100, "refresh", true⟩ 10 =
      .unauthorized "Refresh token has been revoked" := by
  have h1 := refresh_requires_store_amended (fun _ => none) (fun _ => true)
      (fun _ => some ⟨true⟩) ⟨"7", "j", 100, "refresh", true⟩ 10 rfl (by decide)
  have h2 := refresh_requires_store_amended (fun _ => none) (fun _ => false)
      (fun _ => some ⟨true⟩) ⟨"7", "j", 100, "refresh", true⟩ 10 rfl (by decide)
  exact ⟨h1.1.mpr ⟨rfl, rfl, rfl, ⟨⟨true⟩, rfl, rfl⟩⟩, h2.2 rfl rfl rfl⟩

/-! ## C4 / C5 — rate limiter -/

/-- C4: evaluation at a failing input.  Two bursts of five requests each,
thirty seconds apart (half the sixty-second window), are all allowed —
ten requests inside one trailing window of sixty seconds against a limit
of five — because all requests of one second share the sorted-set member
`str(current_time)` and each burst is recorded as a single entry. -/
theorem rate_limit_burst_doubling_bug :
    (runRate ∅ 5 60 [1000, 1000, 1000, 1000, 1000, 1030, 1030, 1030, 1030, 1030]).map
        RateResult.allowed = List.replicate 10 true ∧
    ∀ t ∈ ([1000, 1000, 1000, 1000, 1000, 1030, 1030, 1030, 1030, 1030] : List Int),
      1030 - 60 < t ∧ t ≤ 1030 := by
  constructor
  · decide
  · decide

/-- C5: evaluation at the failing input.  Six `check_rate_limit` calls for a
fresh identifier, all at the same instant, with limit five and a sixty
second window: the sixth call still returns `allowed = true` with
`retry_after = 0` (the claimed behaviour is `allowed = false` with
`retry_after ≈ 60`), because the six same-second requests collapse into
one sorted-set member and the count never exceeds one. -/
theorem rate_limit_same_instant_bug :
    (runRate ∅ 5 60 [1000, 1000, 1000, 1000, 1000, 1000]).map RateResult.allowed =
      [true, true, true, true, true, true] ∧
    (runRate ∅ 5 60 [1000, 1000, 1000, 1000, 1000, 1000]).getLast? =
      some { allowed := true, limit := 5, remaining := 3,
             reset_time := 1060, retry_after := 0 } := by
  constructor
  · decide
  · decide

/-! ## C10 — limit 0 -/

/-- C10, counterexample: with `limit = 0` not every call is allowed — the
first call (empty window) is allowed and recorded, but a second call in
the same window finds a non-empty timestamp set, so the denial branch
returns. -/
theorem rate_limit_zero_limit_cex :
    (runRate ∅ 0 60 [1000, 1000]).map RateResult.allowed = [true, false] := by
  decide

/-- C10, amended: with `limit = 0` the count threshold is always met, so a
call is allowed (and recorded) exactly when the pruned window set is
empty — the denial branch returns only when that set is non-empty. -/
theorem rate_limit_zero_limit_amended (state : Finset Int) (window now : Int) :
    ((check_rate_limit state 0 window now).1.allowed = true ↔
      state.filter (fun ts => ¬ (0 ≤ ts ∧ ts ≤ now - window)) = ∅) ∧
    (state.filter (fun ts => ¬ (0 ≤ ts ∧ ts ≤ now - window)) = ∅ →
      check_rate_limit state 0 window now =
        ({ allowed := true, limit := 0, remaining := 0,
           reset_time := now + window, retry_after := 0 }, {now})) := by
  by_cases hne : (state.filter (fun ts => ¬ (0 ≤ ts ∧ ts ≤ now - window))).Nonempty
  · have hcond : (0 : Int) ≤
        ((state.filter (fun ts => ¬ (0 ≤ ts ∧ ts ≤ now - window))).card : Int) ∧
        (state.filter (fun ts => ¬ (0 ≤ ts ∧ ts ≤ now - window))).Nonempty :=
      ⟨Int.natCast_nonneg _, hne⟩
    constructor
    · simp only [check_rate_limit]
      rw [dif_pos hcond]
      simpa using Finset.nonempty_iff_ne_empty.mp hne
    · intro hemp
      exact absurd hemp (Finset.nonempty_iff_ne_empty.mp hne)
  · have hemp := Finset.not_nonempty_iff_eq_empty.mp hne
    have hcond : ¬ ((0 : Int) ≤
        ((state.filter (fun ts => ¬ (0 ≤ ts ∧ ts ≤ now - window))).card : Int) ∧
        (state.filter (fun ts => ¬ (0 ≤ ts ∧ ts ≤ now - window))).Nonempty) :=
      fun hc => hne hc.2
    constructor
    · simp only [check_rate_limit]
      rw [dif_neg hcond]
      simpa using hemp
    · intro _
      simp only [check_rate_limit]
      rw [dif_neg hcond, hemp]
      norm_num

/-- C10, witness for the amended theorem: first call on an empty window is
allowed and recorded; a call that still sees the first one is denied. -/
theorem rate_limit_zero_limit_amended_witness :
    (check_rate_limit ∅ 0 60 1000).1.allowed = true ∧
    (check_rate_limit {(1000 : Int)} 0 60 1010).1.allowed = false := by
  constructor
  · exact (rate_limit_zero_limit_amended ∅ 60 1000).1.mpr (by decide)
  · have h := (rate_limit_zero_limit_amended {(1000 : Int)} 60 1010).1
    have hne : ¬ (({1000} : Finset Int).filter (fun ts => ¬ (0 ≤ ts ∧ ts ≤ 1010 - 60)) = ∅) := by
      decide
    rcases hb : (check_rate_limit {(1000 : Int)} 0 60 1010).1.allowed with _ | _
    · rfl
    · exact absurd (h.mp hb) hne

/-! ## C6 — lockout counting -/

/-- The time of the last element of a list of failure times (`d` for the
empty list). -/
def lastTime (d : Int) : List Int → Int
  | [] => d
  | b :: bs => lastTime b bs

/-- A chain of recorded failures, each within the lockout TTL of the
previous one, accumulates both counters and moves both expiries to the
last failure time plus the lockout duration. -/
theorem recordSeq_chain (cfg : LockSettings) :
    ∀ (ts : List Int) (t : Int) (n p : Nat),
      List.Chain (fun a b => a ≤ b ∧ b ≤ a + cfg.lockout_duration) t ts →
      recordSeq ⟨some ⟨n, t + cfg.lockout_duration⟩,
                 some ⟨p, t + cfg.lockout_duration⟩⟩ cfg ts =
        ⟨some ⟨n + ts.length, lastTime t ts + cfg.lockout_duration⟩,
         some ⟨p + ts.length, lastTime t ts + cfg.lockout_duration⟩⟩
  | [], t, n, p, _ => by simp [recordSeq, lastTime]
  | b :: bs, t, n, p, h => by
      cases h with
      | cons hab hrest =>
          have hstep : record_failed_login_attempt
              ⟨some ⟨n, t + cfg.lockout_duration⟩,
               some ⟨p, t + cfg.lockout_duration⟩⟩ cfg b =
              ⟨some ⟨n + 1, b + cfg.lockout_duration⟩,
               some ⟨p + 1, b + cfg.lockout_duration⟩⟩ := by
            simp [record_failed_login_attempt, counterVal, hab.2]
          have hrec := recordSeq_chain cfg bs b (n + 1) (p + 1) hrest
          simp only [recordSeq, hstep, hrec, List.length_cons]
          have hlast : lastTime t (b :: bs) = lastTime b bs := rfl
          rw [hlast]
          have e1 : n + 1 + bs.length = n + (bs.length + 1) := by omega
          have e2 : p + 1 + bs.length = p + (bs.length + 1) := by omega
          rw [e1, e2]

/-- C6: from cleared counters, `maxAttempts` recorded failures — each
within the lockout TTL of the previous one — make the allowed-check
return `false` at the time of the last failure; one clear call makes it
return `true` again whatever the counters held; and every recorded
failure resets both counters' TTLs to the lockout duration. -/
theorem lockout_counting (cfg : LockSettings) (t : Int) (ts : List Int)
    (hE : 1 ≤ cfg.max_email) (hI : 1 ≤ cfg.max_ip) (hd : 0 ≤ cfg.lockout_duration)
    (hlen : (t :: ts).length = cfg.max_email)
    (hchain : List.Chain (fun a b => a ≤ b ∧ b ≤ a + cfg.lockout_duration) t ts) :
    check_failed_login_attempts (recordSeq ⟨none, none⟩ cfg (t :: ts)) cfg
        (lastTime t ts) = false ∧
    (∀ s now, check_failed_login_attempts (clear_failed_login_attempts s) cfg now = true) ∧
    (∀ s now,
      (record_failed_login_attempt s cfg now).email =
        some ⟨counterVal s.email now + 1, now + cfg.lockout_duration⟩ ∧
      (record_failed_login_attempt s cfg now).ip =
        some ⟨counterVal s.ip now + 1, now + cfg.lockout_duration⟩) := by
  refine ⟨?_, ?_, ?_⟩
  · have h0 : recordSeq ⟨none, none⟩ cfg (t :: ts) =
        recordSeq ⟨some ⟨1, t + cfg.lockout_duration⟩,
                   some ⟨1, t + cfg.lockout_duration⟩⟩ cfg ts := by
      simp [recordSeq, record_failed_login_attempt, counterVal]
    rw [h0, recordSeq_chain cfg ts t 1 1 hchain]
    have hlast : lastTime t ts ≤ lastTime t ts + cfg.lockout_duration := by omega
    have hcnt : 1 + ts.length = cfg.max_email := by
      simp only [List.length_cons] at hlen
      omega
    simp [check_failed_login_attempts, check_failed_login_attempts_fallible,
      counterVal, hlast, hcnt, hd]
  · intro s now
    simp only [check_failed_login_attempts, check_failed_login_attempts_fallible,
      clear_failed_login_attempts, counterVal]
    have h1 : ¬ cfg.max_email = 0 := by omega
    have h2 : ¬ cfg.max_ip = 0 := by omega
    simp [h1, h2]
  · intro s now
    exact ⟨rfl, rfl⟩

/-- C6, witness: three failures at times 0, 10, 20 against maxima of three
lock the pair at time 20; a clear call re-admits it. -/
theorem lockout_counting_witness :
    check_failed_login_attempts (recordSeq ⟨none, none⟩ ⟨3, 3, 300⟩ [0, 10, 20])
      ⟨3, 3, 300⟩ 20 = false ∧
    check_failed_login_attempts
      (clear_failed_login_attempts (recordSeq ⟨none, none⟩ ⟨3, 3, 300⟩ [0, 10, 20]))
      ⟨3, 3, 300⟩ 20 = true := by
  have hch : List.Chain
      (fun a b => a ≤ b ∧ b ≤ a + (⟨3, 3, 300⟩ : LockSettings).lockout_duration)
      0 [10, 20] :=
    List.Chain.cons (by decide) (List.Chain.cons (by decide) List.Chain.nil)
  have h := lockout_counting ⟨3, 3, 300⟩ 0 [10, 20] (by decide) (by decide) (by decide)
      (by decide) hch
  exact ⟨h.1, h.2.1 (recordSeq ⟨none, none⟩ ⟨3, 3, 300⟩ [0, 10, 20]) 20⟩

/-! ## C8 — credential-failure indistinguishability -/

/-- C8: when the rate limiter and the lockout guard both admit the attempt,
a login naming a nonexistent user and a login naming an existing user
with a wrong password produce identical responses: the same 401 error
with the same generic message, whatever password the first caller sent. -/
theorem login_failure_indistinguishable (S : AuthState) (cfg : LockSettings)
    (u : LoginUser) (pw : Bool) (now : Int)
    (hrate : (check_rate_limit S.rate 5 300 now).1.allowed = true)
    (hlock : check_failed_login_attempts S.lock cfg now = true) :
    (login S cfg none pw now).1 = (login S cfg (some u) false now).1 ∧
    (login S cfg none pw now).1 = .error ⟨401, "Invalid email or password"⟩ := by
  constructor <;> simp [login, hrate, hlock]

/-- C8, witness: a fresh state, a password-mismatch user and a missing user
answer with the same 401. -/
theorem login_failure_indistinguishable_witness :
    (login ⟨∅, ⟨none, none⟩⟩ ⟨5, 10, 300⟩ none true 0).1 =
      (login ⟨∅, ⟨none, none⟩⟩ ⟨5, 10, 300⟩ (some ⟨true, none⟩) false 0).1 ∧
    (login ⟨∅, ⟨none, none⟩⟩ ⟨5, 10, 300⟩ none true 0).1 =
      .error ⟨401, "Invalid email or password"⟩ :=
  login_failure_indistinguishable ⟨∅, ⟨none, none⟩⟩ ⟨5, 10, 300⟩ ⟨true, none⟩ true 0
    (by decide) (by decide)

/-! ## C9 — failure policy on store errors -/

/-- C9, counterexample: with maxima of one — so that a healthy store with
these counters would block the attempt, as the second conjunct shows —
the lockout check still answers allowed when the store reads fail: the
handler returns `True` unconditionally and no configuration flag exists
in the settings to make it deny instead. -/
theorem lockout_fail_open_cex :
    check_failed_login_attempts_fallible (.error ()) (.error ()) ⟨1, 1, 300⟩ 0 = true ∧
    check_failed_login_attempts_fallible (.ok (some ⟨5, 100⟩)) (.ok (some ⟨5, 100⟩))
      ⟨1, 1, 300⟩ 0 = false :=
  ⟨rfl, rfl⟩

/-- C9, amended: the lockout check unconditionally treats the request as
allowed when either store read fails (there is no fail-open
configuration flag to consult), while token verification fails closed:
with an erroring store, verification never returns a payload. -/
theorem store_error_policy_amended (cfg : LockSettings) (now : Int) :
    (∀ ipRead, check_failed_login_attempts_fallible (.error ()) ipRead cfg now = true) ∧
    (∀ emailRead, check_failed_login_attempts_fallible emailRead (.error ()) cfg now = true) ∧
    (∀ (t p : Token), verify_token (.error ()) t now ≠ .ok p) := by
  refine ⟨?_, ?_, ?_⟩
  · intro ipRead
    cases ipRead <;> rfl
  · intro emailRead
    cases emailRead <;> rfl
  · intro t p
    by_cases hs : t.sig_ok
    · by_cases he : t.exp < now <;> simp [verify_token, hs, he]
    · simp [verify_token, hs]

/-- C9, witness: a concrete erroring read is allowed through the lockout
check, and a concrete valid token does not verify on an erroring store. -/
theorem store_error_policy_amended_witness :
    check_failed_login_attempts_fallible (.error ()) (.ok none) ⟨1, 1, 300⟩ 0 = true ∧
    verify_token (.error ()) ⟨"1", "j", 100, "access", true⟩ 0 ≠
      .ok ⟨"1", "j", 100, "access", true⟩ :=
  ⟨(store_error_policy_amended ⟨1, 1, 300⟩ 0).1 (.ok none),
   (store_error_policy_amended ⟨1, 1, 300⟩ 0).2.2 _ _⟩

/-! ## C7 — the sixth failed login attempt -/

/-- A rate-limit call whose window holds fewer entries than the limit, none
of them prunable, allows and records the request. -/
theorem check_rate_limit_allows (state : Finset Int) (limit window now : Int)
    (hin : ∀ ts ∈ state, ¬ (0 ≤ ts ∧ ts ≤ now - window))
    (hcard : (state.card : Int) < limit) :
    check_rate_limit state limit window now =
      ({ allowed := true, limit := limit,
         remaining := max 0 (limit - state.card - 1),
         reset_time := now + window, retry_after := 0 }, insert now state) := by
  have hfil : state.filter (fun ts => ¬ (0 ≤ ts ∧ ts ≤ now - window)) = state :=
    Finset.filter_true_of_mem hin
  simp only [check_rate_limit, hfil]
  rw [dif_neg (fun hc => absurd hc.1 (not_le.mpr hcard))]

/-- A rate-limit call whose non-empty window already holds at least `limit`
entries, none prunable, denies without recording. -/
theorem check_rate_limit_denies (state : Finset Int) (limit window now : Int)
    (hin : ∀ ts ∈ state, ¬ (0 ≤ ts ∧ ts ≤ now - window))
    (hcard : limit ≤ (state.card : Int)) (hne : state.Nonempty) :
    check_rate_limit state limit window now =
      ({ allowed := false, limit := limit, remaining := 0,
         reset_time := state.min' hne + window,
         retry_after := max 0 (state.min' hne + window - now) }, state) := by
  have hfil : state.filter (fun ts => ¬ (0 ≤ ts ∧ ts ≤ now - window)) = state :=
    Finset.filter_true_of_mem hin
  simp only [check_rate_limit, hfil]
  rw [dif_pos ⟨hcard, hne⟩]

/-- Counters below both maxima admit the attempt. -/
theorem check_failed_allows (s : LockState) (cfg : LockSettings) (now : Int)
    (he : counterVal s.email now < cfg.max_email)
    (hi : counterVal s.ip now < cfg.max_ip) :
    check_failed_login_attempts s cfg now = true := by
  show (if cfg.max_email ≤ counterVal s.email now ∨ cfg.max_ip ≤ counterVal s.ip now
      then false else true) = true
  rw [if_neg (by omega)]

/-- A counter at either maximum blocks the attempt. -/
theorem check_failed_denies (s : LockState) (cfg : LockSettings) (now : Int)
    (h : cfg.max_email ≤ counterVal s.email now ∨ cfg.max_ip ≤ counterVal s.ip now) :
    check_failed_login_attempts s cfg now = false := by
  show (if cfg.max_email ≤ counterVal s.email now ∨ cfg.max_ip ≤ counterVal s.ip now
      then false else true) = false
  rw [if_pos h]

/-- A wrong-password attempt that passes the rate limiter and the lockout
guard: the generic 401, the attempt recorded in the rate window and in
both lockout counters. -/
theorem login_wrong_password_step (S : AuthState) (cfg : LockSettings)
    (u : LoginUser) (now : Int)
    (hin : ∀ ts ∈ S.rate, ¬ (0 ≤ ts ∧ ts ≤ now - 300))
    (hcard : (S.rate.card : Int) < 5)
    (hlock : check_failed_login_attempts S.lock cfg now = true) :
    login S cfg (some u) false now =
      (.error ⟨401, "Invalid email or password"⟩,
       ⟨insert now S.rate, record_failed_login_attempt S.lock cfg now⟩) := by
  have hr := check_rate_limit_allows S.rate 5 300 now hin hcard
  simp [login, hr, hlock]

/-- An attempt denied by the rate limiter: 429 with the retry hint, the
shared state untouched (nothing was prunable). -/
theorem login_rate_denied_step (S : AuthState) (cfg : LockSettings)
    (user : Option LoginUser) (pw : Bool) (now : Int)
    (hin : ∀ ts ∈ S.rate, ¬ (0 ≤ ts ∧ ts ≤ now - 300))
    (hcard : 5 ≤ (S.rate.card : Int)) (hne : S.rate.Nonempty) :
    login S cfg user pw now =
      (.error ⟨429, "Too many login attempts. Try again in " ++
          toString (max 0 (S.rate.min' hne + 300 - now)) ++ " seconds."⟩, S) := by
  have hr := check_rate_limit_denies S.rate 5 300 now hin hcard hne
  simp [login, hr]

/-- An attempt that passes the rate limiter but trips the lockout guard:
423, only the rate window records the attempt. -/
theorem login_locked_step (S : AuthState) (cfg : LockSettings)
    (user : Option LoginUser) (pw : Bool) (now : Int)
    (hin : ∀ ts ∈ S.rate, ¬ (0 ≤ ts ∧ ts ≤ now - 300))
    (hcard : (S.rate.card : Int) < 5)
    (hlock : check_failed_login_attempts S.lock cfg now = false) :
    login S cfg user pw now =
      (.error ⟨423, "Account temporarily locked due to excessive failed login attempts"⟩,
       ⟨insert now S.rate, S.lock⟩) := by
  have hr := check_rate_limit_allows S.rate 5 300 now hin hcard
  simp [login, hr, hlock]

/-- C7, counterexample: a user with a wrong password six times within five
minutes from one origin — at six distinct seconds 0, 60, 120, 180, 240,
299, with fresh counters, per-email maximum 5 and per-IP maximum 10 —
receives on the sixth attempt the rate limiter's 429 TooManyRequests,
not the lockout guard's 423 Locked: the rate limiter (5 per 300 s) is
consulted first and counts these five distinct-second prior attempts. -/
theorem login_sixth_attempt_cex :
    (runLogin ⟨∅, ⟨none, none⟩⟩ ⟨5, 10, 300⟩ (some ⟨true, none⟩) false
        [0, 60, 120, 180, 240, 299]).getLast? =
      some (.error ⟨429, "Too many login attempts. Try again in 1 seconds."⟩) := by
  decide

/-- C7, amended: for six wrong-password attempts within five minutes from
one origin (fresh counters, active unlocked user, per-email maximum
five, per-IP maximum at least five, lockout TTL at least the window),
the sixth attempt never reaches the credential check, so it is never
401 Unauthorized — but the denial comes from the rate limiter, which is
consulted before the lockout guard: at six strictly increasing seconds
the sixth attempt fails with 429 TooManyRequests; only when the
attempts collapse into one second (so that the rate window holds a
single member) does the lockout guard trip and return 423 Locked. -/
theorem login_sixth_attempt_amended (cfg : LockSettings) (u : LoginUser)
    (t₁ t₂ t₃ t₄ t₅ t₆ : Int)
    (hE : cfg.max_email = 5) (hI : 5 ≤ cfg.max_ip) (hD : 300 ≤ cfg.lockout_duration)
    (h12 : t₁ < t₂) (h23 : t₂ < t₃) (h34 : t₃ < t₄) (h45 : t₄ < t₅) (h56 : t₅ < t₆)
    (hspan : t₆ ≤ t₁ + 299) :
    (∃ d, (runLogin ⟨∅, ⟨none, none⟩⟩ cfg (some u) false
        [t₁, t₂, t₃, t₄, t₅, t₆]).getLast? = some (.error ⟨429, d⟩)) ∧
    (runLogin ⟨∅, ⟨none, none⟩⟩ cfg (some u) false
        [t₁, t₁, t₁, t₁, t₁, t₁]).getLast? =
      some (.error ⟨423,
        "Account temporarily locked due to excessive failed login attempts"⟩) := by
  have hD0 : (0 : Int) ≤ cfg.lockout_duration := by omega
  -- shared first attempt
  have hin1 : ∀ ts ∈ (∅ : Finset Int), ¬ (0 ≤ ts ∧ ts ≤ t₁ - 300) := by
    intro ts hts
    simp at hts
  have hlock1 : check_failed_login_attempts ⟨none, none⟩ cfg t₁ = true :=
    check_failed_allows _ cfg t₁ (by simp [counterVal, hE]) (by simp [counterVal]; omega)
  have s1 : login ⟨∅, ⟨none, none⟩⟩ cfg (some u) false t₁ =
      (.error ⟨401, "Invalid email or password"⟩,
       ⟨insert t₁ ∅,
        ⟨some ⟨1, t₁ + cfg.lockout_duration⟩, some ⟨1, t₁ + cfg.lockout_duration⟩⟩⟩) := by
    rw [login_wrong_password_step _ cfg u t₁ hin1 (by norm_num) hlock1]
    simp [record_failed_login_attempt, counterVal]
  have hc1 : (insert t₁ (∅ : Finset Int)).card = 1 := by simp
  -- distinct-seconds run, attempts 2..5
  have hin2 : ∀ ts ∈ insert t₁ (∅ : Finset Int), ¬ (0 ≤ ts ∧ ts ≤ t₂ - 300) := by
    intro ts hts
    simp [Finset.mem_insert] at hts
    omega
  have hlock2 : check_failed_login_attempts
      ⟨some ⟨1, t₁ + cfg.lockout_duration⟩, some ⟨1, t₁ + cfg.lockout_duration⟩⟩
      cfg t₂ = true := by
    have halive : t₂ ≤ t₁ + cfg.lockout_duration := by omega
    exact check_failed_allows _ cfg t₂ (by simp [counterVal, halive, hE])
      (by simp [counterVal, halive]; omega)
  have s2 : login ⟨insert t₁ ∅,
      ⟨some ⟨1, t₁ + cfg.lockout_duration⟩, some ⟨1, t₁ + cfg.lockout_duration⟩⟩⟩
      cfg (some u) false t₂ =
      (.error ⟨401, "Invalid email or password"⟩,
       ⟨insert t₂ (insert t₁ ∅),
        ⟨some ⟨2, t₂ + cfg.lockout_duration⟩, some ⟨2, t₂ + cfg.lockout_duration⟩⟩⟩) := by
    rw [login_wrong_password_step _ cfg u t₂ hin2 (by rw [hc1]; norm_num) hlock2]
    simp [record_failed_login_attempt, counterVal, show t₂ ≤ t₁ + cfg.lockout_duration
      from by omega]
  have hc2 : (insert t₂ (insert t₁ (∅ : Finset Int))).card = 2 := by
    rw [Finset.card_insert_of_not_mem (by simp; omega), hc1]
  have hin3 : ∀ ts ∈ insert t₂ (insert t₁ (∅ : Finset Int)),
      ¬ (0 ≤ ts ∧ ts ≤ t₃ - 300) := by
    intro ts hts
    simp [Finset.mem_insert] at hts
    omega
  have hlock3 : check_failed_login_attempts
      ⟨some ⟨2, t₂ + cfg.lockout_duration⟩, some ⟨2, t₂ + cfg.lockout_duration⟩⟩
      cfg t₃ = true := by
    have halive : t₃ ≤ t₂ + cfg.lockout_duration := by omega
    exact check_failed_allows _ cfg t₃ (by simp [counterVal, halive, hE])
      (by simp [counterVal, halive]; omega)
  have s3 : login ⟨insert t₂ (insert t₁ ∅),
      ⟨some ⟨2, t₂ + cfg.lockout_duration⟩, some ⟨2, t₂ + cfg.lockout_duration⟩⟩⟩
      cfg (some u) false t₃ =
      (.error ⟨401, "Invalid email or password"⟩,
       ⟨insert t₃ (insert t₂ (insert t₁ ∅)),
        ⟨some ⟨3, t₃ + cfg.lockout_duration⟩, some ⟨3, t₃ + cfg.lockout_duration⟩⟩⟩) := by
    rw [login_wrong_password_step _ cfg u t₃ hin3 (by rw [hc2]; norm_num) hlock3]
    simp [record_failed_login_attempt, counterVal, show t₃ ≤ t₂ + cfg.lockout_duration
      from by omega]
  have hc3 : (insert t₃ (insert t₂ (insert t₁ (∅ : Finset Int)))).card = 3 := by
    rw [Finset.card_insert_of_not_mem (by simp; omega), hc2]
  have hin4 : ∀ ts ∈ insert t₃ (insert t₂ (insert t₁ (∅ : Finset Int))),
      ¬ (0 ≤ ts ∧ ts ≤ t₄ - 300) := by
    intro ts hts
    simp [Finset.mem_insert] at hts
    omega
  have hlock4 : check_failed_login_attempts
      ⟨some ⟨3, t₃ + cfg.lockout_duration⟩, some ⟨3, t₃ + cfg.lockout_duration⟩⟩
      cfg t₄ = true := by
    have halive : t₄ ≤ t₃ + cfg.lockout_duration := by omega
    exact check_failed_allows _ cfg t₄ (by simp [counterVal, halive, hE])
      (by simp [counterVal, halive]; omega)
  have s4 : login ⟨insert t₃ (insert t₂ (insert t₁ ∅)),
      ⟨some ⟨3, t₃ + cfg.lockout_duration⟩, some ⟨3, t₃ + cfg.lockout_duration⟩⟩⟩
      cfg (some u) false t₄ =
      (.error ⟨401, "Invalid email or password"⟩,
       ⟨insert t₄ (insert t₃ (insert t₂ (insert t₁ ∅))),
        ⟨some ⟨4, t₄ + cfg.lockout_duration⟩, some ⟨4, t₄ + cfg.lockout_duration⟩⟩⟩) := by
    rw [login_wrong_password_step _ cfg u t₄ hin4 (by rw [hc3]; norm_num) hlock4]
    simp [record_failed_login_attempt, counterVal, show t₄ ≤ t₃ + cfg.lockout_duration
      from by omega]
  have hc4 : (insert t₄ (insert t₃ (insert t₂ (insert t₁ (∅ : Finset Int))))).card = 4 := by
    rw [Finset.card_insert_of_not_mem (by simp; omega), hc3]
  have hin5 : ∀ ts ∈ insert t₄ (insert t₃ (insert t₂ (insert t₁ (∅ : Finset Int)))),
      ¬ (0 ≤ ts ∧ ts ≤ t₅ - 300) := by
    intro ts hts
    simp [Finset.mem_insert] at hts
    omega
  have hlock5 : check_failed_login_attempts
      ⟨some ⟨4, t₄ + cfg.lockout_duration⟩, some ⟨4, t₄ + cfg.lockout_duration⟩⟩
      cfg t₅ = true := by
    have halive : t₅ ≤ t₄ + cfg.lockout_duration := by omega
    exact check_failed_allows _ cfg t₅ (by simp [counterVal, halive, hE])
      (by simp [counterVal, halive]; omega)
  have s5 : login ⟨insert t₄ (insert t₃ (insert t₂ (insert t₁ ∅))),
      ⟨some ⟨4, t₄ + cfg.lockout_duration⟩, some ⟨4, t₄ + cfg.lockout_duration⟩⟩⟩
      cfg (some u) false t₅ =
      (.error ⟨401, "Invalid email or password"⟩,
       ⟨insert t₅ (insert t₄ (insert t₃ (insert t₂ (insert t₁ ∅)))),
        ⟨some ⟨5, t₅ + cfg.lockout_duration⟩, some ⟨5, t₅ + cfg.lockout_duration⟩⟩⟩) := by
    rw [login_wrong_password_step _ cfg u t₅ hin5 (by rw [hc4]; norm_num) hlock5]
    simp [record_failed_login_attempt, counterVal, show t₅ ≤ t₄ + cfg.lockout_duration
      from by omega]
  have hc5 : (insert t₅ (insert t₄ (insert t₃ (insert t₂
      (insert t₁ (∅ : Finset Int)))))).card = 5 := by
    rw [Finset.card_insert_of_not_mem (by simp; omega), hc4]
  have hin6 : ∀ ts ∈ insert t₅ (insert t₄ (insert t₃ (insert t₂
      (insert t₁ (∅ : Finset Int))))), ¬ (0 ≤ ts ∧ ts ≤ t₆ - 300) := by
    intro ts hts
    simp [Finset.mem_insert] at hts
    omega
  have hne5 : (insert t₅ (insert t₄ (insert t₃ (insert t₂
      (insert t₁ (∅ : Finset Int)))))).Nonempty := ⟨t₅, by simp⟩
  have s6 : login ⟨insert t₅ (insert t₄ (insert t₃ (insert t₂ (insert t₁ ∅)))),
      ⟨some ⟨5, t₅ + cfg.lockout_duration⟩, some ⟨5, t₅ + cfg.lockout_duration⟩⟩⟩
      cfg (some u) false t₆ =
      (.error ⟨429, "Too many login attempts. Try again in " ++
          toString (max 0 ((insert t₅ (insert t₄ (insert t₃ (insert t₂
            (insert t₁ (∅ : Finset Int)))))).min' hne5 + 300 - t₆)) ++ " seconds."⟩,
       ⟨insert t₅ (insert t₄ (insert t₃ (insert t₂ (insert t₁ ∅)))),
        ⟨some ⟨5, t₅ + cfg.lockout_duration⟩, some ⟨5, t₅ + cfg.lockout_duration⟩⟩⟩) :=
    login_rate_denied_step
      ⟨insert t₅ (insert t₄ (insert t₃ (insert t₂ (insert t₁ ∅)))),
       ⟨some ⟨5, t₅ + cfg.lockout_duration⟩, some ⟨5, t₅ + cfg.lockout_duration⟩⟩⟩
      cfg (some u) false t₆ hin6 (by rw [hc5]; norm_num) hne5
  -- same-second run, attempts 2..6 all at t₁
  have hin1' : ∀ ts ∈ insert t₁ (∅ : Finset Int), ¬ (0 ≤ ts ∧ ts ≤ t₁ - 300) := by
    intro ts hts
    simp [Finset.mem_insert] at hts
    omega
  have halive1 : t₁ ≤ t₁ + cfg.lockout_duration := by omega
  have u2 : login ⟨insert t₁ ∅,
      ⟨some ⟨1, t₁ + cfg.lockout_duration⟩, some ⟨1, t₁ + cfg.lockout_duration⟩⟩⟩
      cfg (some u) false t₁ =
      (.error ⟨401, "Invalid email or password"⟩,
       ⟨insert t₁ ∅,
        ⟨some ⟨2, t₁ + cfg.lockout_duration⟩, some ⟨2, t₁ + cfg.lockout_duration⟩⟩⟩) := by
    rw [login_wrong_password_step _ cfg u t₁ hin1' (by rw [hc1]; norm_num)
      (check_failed_allows _ cfg t₁ (by simp [counterVal, halive1, hE])
        (by simp [counterVal, halive1]; omega))]
    simp [record_failed_login_attempt, counterVal, halive1, Finset.insert_idem]
  have u3 : login ⟨insert t₁ ∅,
      ⟨some ⟨2, t₁ + cfg.lockout_duration⟩, some ⟨2, t₁ + cfg.lockout_duration⟩⟩⟩
      cfg (some u) false t₁ =
      (.error ⟨401, "Invalid email or password"⟩,
       ⟨insert t₁ ∅,
        ⟨some ⟨3, t₁ + cfg.lockout_duration⟩, some ⟨3, t₁ + cfg.lockout_duration⟩⟩⟩) := by
    rw [login_wrong_password_step _ cfg u t₁ hin1' (by rw [hc1]; norm_num)
      (check_failed_allows _ cfg t₁ (by simp [counterVal, halive1, hE])
        (by simp [counterVal, halive1]; omega))]
    simp [record_failed_login_attempt, counterVal, halive1, Finset.insert_idem]
  have u4 : login ⟨insert t₁ ∅,
      ⟨some ⟨3, t₁ + cfg.lockout_duration⟩, some ⟨3, t₁ + cfg.lockout_duration⟩⟩⟩
      cfg (some u) false t₁ =
      (.error ⟨401, "Invalid email or password"⟩,
       ⟨insert t₁ ∅,
        ⟨some ⟨4, t₁ + cfg.lockout_duration⟩, some ⟨4, t₁ + cfg.lockout_duration⟩⟩⟩) := by
    rw [login_wrong_password_step _ cfg u t₁ hin1' (by rw [hc1]; norm_num)
      (check_failed_allows _ cfg t₁ (by simp [counterVal, halive1, hE])
        (by simp [counterVal, halive1]; omega))]
    simp [record_failed_login_attempt, counterVal, halive1, Finset.insert_idem]
  have u5 : login ⟨insert t₁ ∅,
      ⟨some ⟨4, t₁ + cfg.lockout_duration⟩, some ⟨4, t₁ + cfg.lockout_duration⟩⟩⟩
      cfg (some u) false t₁ =
      (.error ⟨401, "Invalid email or password"⟩,
       ⟨insert t₁ ∅,
        ⟨some ⟨5, t₁ + cfg.lockout_duration⟩, some ⟨5, t₁ + cfg.lockout_duration⟩⟩⟩) := by
    rw [login_wrong_password_step _ cfg u t₁ hin1' (by rw [hc1]; norm_num)
      (check_failed_allows _ cfg t₁ (by simp [counterVal, halive1, hE])
        (by simp [counterVal, halive1]; omega))]
    simp [record_failed_login_attempt, counterVal, halive1, Finset.insert_idem]
  have u6 : login ⟨insert t₁ ∅,
      ⟨some ⟨5, t₁ + cfg.lockout_duration⟩, some ⟨5, t₁ + cfg.lockout_duration⟩⟩⟩
      cfg (some u) false t₁ =
      (.error ⟨423,
        "Account temporarily locked due to excessive failed login attempts"⟩,
       ⟨insert t₁ (insert t₁ ∅),
        ⟨some ⟨5, t₁ + cfg.lockout_duration⟩, some ⟨5, t₁ + cfg.lockout_duration⟩⟩⟩) := by
    rw [login_locked_step _ cfg (some u) false t₁ hin1' (by rw [hc1]; norm_num)
      (check_failed_denies _ cfg t₁ (Or.inl (by simp [counterVal, halive1, hE])))]
  constructor
  · have hrun : runLogin ⟨∅, ⟨none, none⟩⟩ cfg (some u) false
        [t₁, t₂, t₃, t₄, t₅, t₆] =
        [.error ⟨401, "Invalid email or password"⟩,
         .error ⟨401, "Invalid email or password"⟩,
         .error ⟨401, "Invalid email or password"⟩,
         .error ⟨401, "Invalid email or password"⟩,
         .error ⟨401, "Invalid email or password"⟩,
         .error ⟨429, "Too many login attempts. Try again in " ++
            toString (max 0 ((insert t₅ (insert t₄ (insert t₃ (insert t₂
              (insert t₁ (∅ : Finset Int)))))).min' hne5 + 300 - t₆)) ++
            " seconds."⟩] := by
      simp only [runLogin, s1, s2, s3, s4, s5, s6]
    exact ⟨_, by rw [hrun]; rfl⟩
  · have hrun : runLogin ⟨∅, ⟨none, none⟩⟩ cfg (some u) false
        [t₁, t₁, t₁, t₁, t₁, t₁] =
        [.error ⟨401, "Invalid email or password"⟩,
         .error ⟨401, "Invalid email or password"⟩,
         .error ⟨401, "Invalid email or password"⟩,
         .error ⟨401, "Invalid email or password"⟩,
         .error ⟨401, "Invalid email or password"⟩,
         .error ⟨423,
           "Account temporarily locked due to excessive failed login attempts"⟩] := by
      simp only [runLogin, s1, u2, u3, u4, u5, u6]
    rw [hrun]
    rfl

/-- C7, witness for the amended theorem at the concrete timings 0, 60, 120,
180, 240, 299 (distinct seconds) and six attempts at second 0. -/
theorem login_sixth_attempt_amended_witness :
    (∃ d, (runLogin ⟨∅, ⟨none, none⟩⟩ ⟨5, 10, 300⟩ (some ⟨true, none⟩) false
        [0, 60, 120, 180, 240, 299]).getLast? = some (.error ⟨429, d⟩)) ∧
    (runLogin ⟨∅, ⟨none, none⟩⟩ ⟨5, 10, 300⟩ (some ⟨true, none⟩) false
        [0, 0, 0, 0, 0, 0]).getLast? =
      some (.error ⟨423,
        "Account temporarily locked due to excessive failed login attempts"⟩) :=
  login_sixth_attempt_amended ⟨5, 10, 300⟩ ⟨true, none⟩ 0 60 120 180 240 299
    rfl (by decide) (by decide) (by decide) (by decide) (by decide) (by decide)
    (by decide) (by decide)

end Scout
